import Mathlib

/-!
Shallow embedding of the browserhive capture subsystem (TypeScript sources
under `src/`): worker status state machine, error classification, filename
generation, task queue, worker, worker pool and the gRPC submission handler,
together with theorems settling the specification claims.
-/

set_option maxHeartbeats 1000000

/-! ## String helpers (model of JS `String.prototype.includes`) -/

/-- `startsWithL s p` is true when the char list `p` is a prefix of `s`
(model of checking a pattern at one position of a JS string). -/
def startsWithL : List Char → List Char → Bool
  | _, [] => true
  | [], _ :: _ => false
  | c :: cs, p :: ps => c == p && startsWithL cs ps

/-- `containsSubL s p`: `p` occurs as a contiguous substring of `s`. -/
def containsSubL : List Char → List Char → Bool
  | [], p => p.isEmpty
  | c :: cs, p => startsWithL (c :: cs) p || containsSubL cs p

/-- Model of JS `s.includes(pat)`. -/
def containsSub (s pat : String) : Bool :=
  containsSubL s.data pat.data

/-- Model of JS `String.prototype.trim`: drop whitespace from both ends.
(Defined over the char list so that it evaluates in the kernel.) -/
def jsTrim (s : String) : String :=
  String.mk (((s.data.dropWhile Char.isWhitespace).reverse.dropWhile
    Char.isWhitespace).reverse)

/-- Model of JS `Array.prototype.join(sep)`. -/
def joinSep (sep : String) : List String → String
  | [] => ""
  | [x] => x
  | x :: xs => x ++ sep ++ joinSep sep xs

/-! ## Worker status (`src/capture/worker-status.ts`) -/

/-- The four worker states of `WORKER_STATUS_DEFINITIONS`. -/
inductive WorkerStatus where
  | idle
  | busy
  | error
  | stopped
deriving DecidableEq, Repr, Fintype

/-- Decidable equality on `Except` values (used to settle the state-machine
claims by finite case analysis). -/
instance {ε α : Type} [DecidableEq ε] [DecidableEq α] : DecidableEq (Except ε α) := fun a b =>
  match a, b with
  | .error e, .error f => decidable_of_iff (e = f) (by simp)
  | .ok x, .ok y => decidable_of_iff (x = y) (by simp)
  | .error _, .ok _ => isFalse (by simp)
  | .ok _, .error _ => isFalse (by simp)

/-- String name of a status (the TS statuses are string literals). -/
def workerStatusName : WorkerStatus → String
  | .idle => "idle"
  | .busy => "busy"
  | .error => "error"
  | .stopped => "stopped"

/-- `allowedTransitions` field of `WORKER_STATUS_DEFINITIONS`. -/
def allowedTransitions : WorkerStatus → List WorkerStatus
  | .idle => [.busy, .error, .stopped]
  | .busy => [.idle, .error, .stopped]
  | .error => [.idle, .stopped]
  | .stopped => [.idle, .error]

/-- `canProcess` field of `WORKER_STATUS_DEFINITIONS`. -/
def canProcess : WorkerStatus → Bool
  | .idle => true
  | .busy => false
  | .error => false
  | .stopped => false

/-- `healthy` field of `WORKER_STATUS_DEFINITIONS` (`isHealthyStatus`). -/
def isHealthyStatus : WorkerStatus → Bool
  | .idle => true
  | .busy => true
  | .error => false
  | .stopped => false

/-- `canTransitionTo(from, to)` from `worker-status.ts`. -/
def canTransitionTo (src dst : WorkerStatus) : Bool :=
  (allowedTransitions src).contains dst

/-- Initial status of `WorkerStatusManager` (constructor default). -/
def initialWorkerStatus : WorkerStatus := .stopped

/-- `WorkerStatusManager.transitionTo` from `worker-status-manager.ts`:
a self-transition returns without validation; a transition outside the
table throws; otherwise the state is updated. The thrown `Error` is
modelled as the `Except.error` message. -/
def transitionTo (current next : WorkerStatus) : Except String WorkerStatus :=
  if current = next then
    .ok current
  else if canTransitionTo current next then
    .ok next
  else
    .error ("Invalid status transition: " ++ workerStatusName current ++ " -> "
      ++ workerStatusName next)

/-! ## Error classification (`src/capture/error-type.ts`, `error-details.ts`) -/

/-- The four error variants of `ERROR_TYPE_DEFINITIONS`. -/
inductive ErrorType where
  | http
  | timeout
  | connection
  | internal
deriving DecidableEq, Repr

/-- `ErrorDetails` record (`types.ts`); optional TS fields become `Option`. -/
structure ErrorDetails where
  type : ErrorType
  message : String
  httpStatusCode : Option Nat := none
  httpStatusText : Option String := none
  timeoutMs : Option Nat := none
deriving DecidableEq, Repr

/-- Numeric value of a digit list (model of `parseInt(digits, 10)`). -/
def digitsToNat (ds : List Char) : Nat :=
  ds.foldl (fun n c => n * 10 + (c.toNat - '0'.toNat)) 0

/-- Model of `/\((\d+)ms\)/.exec(message)`: scan for the leftmost position
holding a literal `(`, one or more digits, then `ms)`; return the parsed
digit group if such a match exists. -/
def execParenMs : List Char → Option Nat
  | [] => none
  | c :: cs =>
    let ds := cs.takeWhile Char.isDigit
    let rest := cs.dropWhile Char.isDigit
    if c == '(' && !ds.isEmpty && startsWithL rest ['m', 's', ')'] then
      some (digitsToNat ds)
    else
      execParenMs cs

/-- `errorDetailsFromException` from `error-details.ts`, as a function of the
exception's message string. -/
def errorDetailsFromException (message : String) : ErrorDetails :=
  if containsSub message "Timeout" then
    { type := .timeout, message := message, timeoutMs := execParenMs message.data }
  else if containsSub message "disconnect" || containsSub message "closed" then
    { type := .connection, message := message }
  else
    { type := .internal, message := message }

/-! ## Capture options (`src/capture/capture-mode.ts`) -/

/-- Three capture flags; the proto wire form carries the same three flags. -/
structure CaptureOptions where
  png : Bool
  jpeg : Bool
  html : Bool
deriving DecidableEq, Repr

/-- `ValidationResult` (`types.ts`). -/
structure ValidationResult where
  valid : Bool
  error : Option String := none
deriving DecidableEq, Repr

/-- `validateCaptureOptions` from `capture-mode.ts`. -/
def validateCaptureOptions (options : CaptureOptions) : ValidationResult :=
  if !options.png && !options.jpeg && !options.html then
    { valid := false,
      error := some "At least one capture option must be enabled (png, jpeg, or html)" }
  else
    { valid := true }

/-- `captureOptionsFromProto` from `capture-mode.ts`; `none` models a request
in which the proto `capture_options` field is absent (`undefined`). -/
def captureOptionsFromProto (proto : Option CaptureOptions) : CaptureOptions :=
  match proto with
  | none => { png := false, jpeg := false, html := false }
  | some p => { png := p.png, jpeg := p.jpeg, html := p.html }

/-! ## Capture status and task/result records -/

/-- `captureStatus` from `src/capture/capture-status.ts` (the four-status
version used by `page-capturer.ts` and `worker-pool.ts`). -/
inductive CaptureStatus where
  | success
  | failed
  | timeout
  | httpError
deriving DecidableEq, Repr

/-- `isSuccessStatus` from `capture-status.ts`. -/
def isSuccessStatus (status : CaptureStatus) : Bool :=
  status == .success

/-- `CaptureTask` (`types.ts`): `correlationId` is an optional field. -/
structure CaptureTask where
  taskId : String
  url : String
  labels : List String
  correlationId : Option String := none
  captureOptions : CaptureOptions
  retryCount : Nat
deriving DecidableEq, Repr

/-- `CaptureResult` (`types.ts`); all optional TS fields become `Option`.
`error` is the flat message string set by `Worker.process`; `errorDetails`
is the structured record set by `PageCapturer.capture`. -/
structure CaptureResult where
  task : CaptureTask
  status : CaptureStatus
  httpStatusCode : Option Nat := none
  errorDetails : Option ErrorDetails := none
  error : Option String := none
  pngPath : Option String := none
  jpegPath : Option String := none
  htmlPath : Option String := none
  captureProcessingTimeMs : Nat
  timestamp : String
  workerId : String
deriving DecidableEq, Repr

/-! ## Filename validation and generation (`src/capture/page-capturer.ts`) -/

/-- `INVALID_FILENAME_CHARS_LIST`. -/
def INVALID_FILENAME_CHARS_LIST : List Char :=
  ['<', '>', ':', '"', '/', '\\', '|', '?', '*', '_']

/-- `INVALID_FILENAME_CHARS_DISPLAY` (the list joined by a space). -/
def INVALID_FILENAME_CHARS_DISPLAY : String :=
  joinSep " " (INVALID_FILENAME_CHARS_LIST.map (fun c => String.mk [c]))

/-- `MAX_FILENAME_LENGTH`. -/
def MAX_FILENAME_LENGTH : Nat := 100

/-- `validateFilename` from `page-capturer.ts`. -/
def validateFilename (name : String) : ValidationResult :=
  if name.length = 0 then
    { valid := false,
      error := some ("Invalid filename \"" ++ name ++ "\": filename cannot be empty") }
  else if name.length > MAX_FILENAME_LENGTH then
    { valid := false,
      error := some ("Invalid filename \"" ++ name ++ "\": filename exceeds 100 characters") }
  else if name.data.any (fun c => INVALID_FILENAME_CHARS_LIST.contains c) then
    { valid := false,
      error := some ("Invalid filename \"" ++ name ++ "\": contains invalid characters: "
        ++ INVALID_FILENAME_CHARS_DISPLAY) }
  else if name.data.any Char.isWhitespace then
    { valid := false,
      error := some ("Invalid filename \"" ++ name ++ "\": contains whitespace characters") }
  else
    { valid := true }

/-- `validateLabels` from `page-capturer.ts`: empty list is valid; otherwise
each label is trimmed and validated, first failure wins. -/
def validateLabels : List String → ValidationResult
  | [] => { valid := true }
  | l :: ls =>
    let result := validateFilename (jsTrim l)
    if result.valid then validateLabels ls else result

/-- `LABELS_SEPARATOR`. -/
def LABELS_SEPARATOR : String := "-"

/-- `generateFilename` from `page-capturer.ts`. The TS code pushes
`task.correlationId` only when it is truthy, so an absent (`none`) or empty
correlation id is skipped. -/
def generateFilename (task : CaptureTask) (extension : String) : String :=
  let parts := [task.taskId]
  let parts :=
    match task.correlationId with
    | some c => if c ≠ "" then parts ++ [c] else parts
    | none => parts
  let parts :=
    if task.labels.length > 0 then parts ++ [joinSep LABELS_SEPARATOR task.labels]
    else parts
  joinSep "_" parts ++ "." ++ extension

/-! ## Task queue (`src/capture/task-queue.ts`)

The TS class keeps a pending array, a `Set<string>` of processing task ids,
a `Map<string, string>` from processing task id to url, and a `Set<string>`
of completed ids. Sets and maps are modelled as lists in insertion order. -/

/-- JS `Set.add`: appends the element when not already present. -/
def setAdd (x : String) (s : List String) : List String :=
  if s.contains x then s else s ++ [x]

/-- JS `Set.delete`: removes the element. -/
def setDelete (x : String) (s : List String) : List String :=
  s.filter (fun y => y ≠ x)

/-- JS `Map.set`: overwrites the value when the key exists, otherwise
appends the binding. -/
def mapSet (k v : String) (m : List (String × String)) : List (String × String) :=
  if m.any (fun p => p.1 = k) then
    m.map (fun p => if p.1 = k then (k, v) else p)
  else
    m ++ [(k, v)]

/-- JS `Map.delete`: removes the binding for the key. -/
def mapDelete (k : String) (m : List (String × String)) : List (String × String) :=
  m.filter (fun p => p.1 ≠ k)

/-- State of the `TaskQueue` class. -/
structure TaskQueue where
  queue : List CaptureTask := []
  processing : List String := []
  processingUrls : List (String × String) := []
  completed : List String := []
deriving Repr

namespace TaskQueue

/-- `enqueue`: append to the pending tail. -/
def enqueue (s : TaskQueue) (task : CaptureTask) : TaskQueue :=
  { s with queue := s.queue ++ [task] }

/-- `dequeue`: shift the pending head; on a task, record its id and url in
the processing containers. -/
def dequeue (s : TaskQueue) : Option CaptureTask × TaskQueue :=
  match s.queue with
  | [] => (none, s)
  | task :: rest =>
    (some task,
      { s with
        queue := rest
        processing := setAdd task.taskId s.processing
        processingUrls := mapSet task.taskId task.url s.processingUrls })

/-- `requeue`: drop the task from the processing containers and append a
copy with `retryCount + 1` to the pending tail. -/
def requeue (s : TaskQueue) (task : CaptureTask) : TaskQueue :=
  { s with
    processing := setDelete task.taskId s.processing
    processingUrls := mapDelete task.taskId s.processingUrls
    queue := s.queue ++ [{ task with retryCount := task.retryCount + 1 }] }

/-- `markComplete`: drop from the processing containers, add to completed. -/
def markComplete (s : TaskQueue) (taskId : String) : TaskQueue :=
  { s with
    processing := setDelete taskId s.processing
    processingUrls := mapDelete taskId s.processingUrls
    completed := setAdd taskId s.completed }

/-- `hasUrl`: linear scan of pending, then of the processing url map values.
The completed set is never consulted. -/
def hasUrl (s : TaskQueue) (url : String) : Bool :=
  s.queue.any (fun t => t.url = url) || s.processingUrls.any (fun p => p.2 = url)

/-- `getStatus` counts. -/
def getStatus (s : TaskQueue) : Nat × Nat × Nat :=
  (s.queue.length, s.processing.length, s.completed.length)

end TaskQueue

/-- The taskId/url pairs of a list of tasks (the shape of the
`processingUrls` map when it tracks exactly the in-flight tasks). -/
def pairsOf (fl : List CaptureTask) : List (String × String) :=
  fl.map (fun t => (t.taskId, t.url))

/-- Queue states reachable through the `TaskQueue` operations as the worker
pool and submission handler drive them: `fl` is the (ghost) list of
in-flight tasks — dequeued but neither requeued nor completed. `enqueue`
carries the freshness of the server-generated UUID task id; `requeue` and
`markComplete` are invoked by a dispatch loop on the task it dequeued. -/
inductive QueueReach : TaskQueue → List CaptureTask → Prop where
  | init : QueueReach {} []
  | enqueue {s : TaskQueue} {fl : List CaptureTask} (task : CaptureTask) :
      QueueReach s fl →
      task.taskId ∉ s.queue.map CaptureTask.taskId →
      task.taskId ∉ fl.map CaptureTask.taskId →
      QueueReach (s.enqueue task) fl
  | dequeue {s : TaskQueue} {fl : List CaptureTask} :
      QueueReach s fl →
      QueueReach (s.dequeue).2 (fl ++ (s.dequeue).1.toList)
  | requeue {s : TaskQueue} {fl : List CaptureTask} (task : CaptureTask) :
      QueueReach s fl → task ∈ fl →
      QueueReach (s.requeue task) (fl.filter (fun u => u.taskId ≠ task.taskId))
  | markComplete {s : TaskQueue} {fl : List CaptureTask} (task : CaptureTask) :
      QueueReach s fl → task ∈ fl →
      QueueReach (s.markComplete task.taskId) (fl.filter (fun u => u.taskId ≠ task.taskId))

/-- Structural invariant of reachable queue states: task ids of pending and
in-flight tasks are pairwise distinct, and the `processingUrls` map holds
exactly the in-flight (taskId, url) pairs. -/
def QueueWF (s : TaskQueue) (fl : List CaptureTask) : Prop :=
  (s.queue.map CaptureTask.taskId ++ fl.map CaptureTask.taskId).Nodup ∧
  s.processingUrls = pairsOf fl

/-! ## Worker (`src/capture/worker.ts`) -/

/-- `MAX_ERROR_HISTORY`. -/
def MAX_ERROR_HISTORY : Nat := 10

/-- Task subset embedded in an `ErrorRecord`. -/
structure ErrorTaskInfo where
  taskId : String
  url : String
  labels : List String
deriving DecidableEq, Repr

/-- `ErrorRecord` (`types.ts`): flat message, timestamp, optional task. -/
structure ErrorRecord where
  message : String
  timestamp : String
  task : Option ErrorTaskInfo := none
deriving DecidableEq, Repr

/-- Mutable state of the `Worker` class. `hasBrowser` models
`this.browser !== null`; wall-clock timestamps are passed in by callers. -/
structure WorkerState where
  id : String
  hasBrowser : Bool
  status : WorkerStatus
  processedCount : Nat
  errorCount : Nat
  errorHistory : List ErrorRecord
deriving DecidableEq, Repr

/-- `Worker.addError`: unshift a record; pop the oldest when the history
exceeds `MAX_ERROR_HISTORY`. -/
def WorkerState.addError (w : WorkerState) (timestamp message : String)
    (task : Option CaptureTask) : WorkerState :=
  let record : ErrorRecord :=
    { message := message
      timestamp := timestamp
      task := task.map (fun t => { taskId := t.taskId, url := t.url, labels := t.labels }) }
  let hist := record :: w.errorHistory
  { w with errorHistory := if hist.length > MAX_ERROR_HISTORY then hist.dropLast else hist }

/-- `Worker.isHealthy` getter. -/
def workerIsHealthy (w : WorkerState) : Bool :=
  w.hasBrowser && isHealthyStatus w.status

/-- What `PageCapturer.capture` did from the worker's point of view: either
it returned a result or an exception escaped with a message. -/
inductive CaptureOutcome where
  | ok (result : CaptureResult)
  | thrown (message : String)
deriving Repr

/-- The `finally` block of `Worker.process`: if the status is still busy,
transition back to idle. -/
def processFinally (w : WorkerState) (r : CaptureResult) :
    Except String (WorkerState × CaptureResult) :=
  if w.status = .busy then
    match transitionTo w.status .idle with
    | .ok st => .ok ({ w with status := st }, r)
    | .error e => .error e
  else
    .ok (w, r)

/-- `Worker.process` from `worker.ts`. A thrown `Error` from a status
transition is modelled as `Except.error` (such transitions never fire on
the paths reachable from the guard, as the theorems show). -/
def Worker.process (w : WorkerState) (task : CaptureTask) (now : String)
    (outcome : CaptureOutcome) : Except String (WorkerState × CaptureResult) :=
  if !w.hasBrowser || !canProcess w.status then
    .ok (w,
      { task := task
        status := .failed
        error := some ("Worker " ++ w.id ++ " is not available (status: "
          ++ workerStatusName w.status ++ ")")
        captureProcessingTimeMs := 0
        timestamp := now
        workerId := w.id })
  else
    match transitionTo w.status .busy with
    | .error e => .error e
    | .ok st1 =>
      let w1 := { w with status := st1 }
      match outcome with
      | .ok result =>
        let w2 := { w1 with processedCount := w1.processedCount + 1 }
        let w3 :=
          if !isSuccessStatus result.status then
            ({ w2 with errorCount := w2.errorCount + 1 }).addError now
              (result.error.getD "Unknown error") (some task)
          else w2
        processFinally w3 result
      | .thrown msg =>
        let w2 := ({ w1 with errorCount := w1.errorCount + 1 }).addError now msg (some task)
        let afterDetect : Except String WorkerState :=
          if containsSub msg "disconnect" || containsSub msg "closed" then
            match transitionTo w2.status .error with
            | .ok st => .ok { w2 with status := st }
            | .error e => .error e
          else .ok w2
        match afterDetect with
        | .error e => .error e
        | .ok w3 =>
          processFinally w3
            { task := task
              status := .failed
              error := some msg
              captureProcessingTimeMs := 0
              timestamp := now
              workerId := w.id }

/-- The worker state after a `process` call that returned normally. -/
def processState (r : Except String (WorkerState × CaptureResult)) : Option WorkerState :=
  match r with
  | .ok p => some p.1
  | .error _ => none

/-- The capture result of a `process` call that returned normally. -/
def processResult (r : Except String (WorkerState × CaptureResult)) : Option CaptureResult :=
  match r with
  | .ok p => some p.2
  | .error _ => none

/-! ## Worker pool (`src/capture/worker-pool.ts`) -/

/-- `EnqueueResult`. -/
structure EnqueueResult where
  success : Bool
  error : Option String := none
deriving DecidableEq, Repr

/-- `WorkerPool.enqueueTask`: duplicate-url rejection, else append. -/
def enqueueTask (rejectDuplicateUrls : Bool) (s : TaskQueue) (task : CaptureTask) :
    EnqueueResult × TaskQueue :=
  if rejectDuplicateUrls && s.hasUrl task.url then
    ({ success := false, error := some ("URL already in queue: " ++ task.url) }, s)
  else
    ({ success := true }, s.enqueue task)

/-- `WorkerPool.shouldRetry`. -/
def shouldRetry (maxRetries : Nat) (task : CaptureTask) : Bool :=
  task.retryCount < maxRetries

/-- The retry-or-complete step of `WorkerPool.workerLoop` after a task was
processed: requeue exactly when the result is not a success and the task is
still eligible, otherwise mark it complete. Returns the new queue and
whether the task was requeued. -/
def handleResult (maxRetries : Nat) (s : TaskQueue) (task : CaptureTask)
    (resultStatus : CaptureStatus) : TaskQueue × Bool :=
  if !isSuccessStatus resultStatus && shouldRetry maxRetries task then
    (s.requeue task, true)
  else
    (s.markComplete task.taskId, false)

/-- Retry counts at which one task is processed by dispatch loops, given the
status each attempt produces (`statusAt k` is the result status of the
attempt made at `retryCount = k`). The recursion mirrors the loop: after an
attempt at count `k`, the task is requeued (and later re-processed at count
`k + 1`) exactly when `!isSuccessStatus (statusAt k) && k < maxRetries`. -/
def attemptsFrom (maxRetries : Nat) (statusAt : Nat → CaptureStatus) (k : Nat) : List Nat :=
  if h : (!isSuccessStatus (statusAt k) && decide (k < maxRetries)) = true then
    k :: attemptsFrom maxRetries statusAt (k + 1)
  else
    [k]
termination_by maxRetries - k
decreasing_by
  simp only [Bool.and_eq_true, decide_eq_true_eq] at h
  omega

/-- Minimal pool state for `start`: the workers, the `running` flag, and the
number of spawned dispatch loops (`workerLoopPromises.length`). -/
structure WorkerPool where
  workers : List WorkerState
  running : Bool := false
  loopCount : Nat := 0
deriving Repr

/-- Outcome of one `start()` call: returned early because already running,
threw, or spawned `n` dispatch loops. -/
inductive StartOutcome where
  | returned
  | threw (message : String)
  | started (n : Nat)
deriving DecidableEq, Repr

/-- `WorkerPool.start` from `worker-pool.ts`: early return when running;
otherwise set `running := true` first, then throw when no worker is
healthy, else spawn one loop per healthy worker. -/
def WorkerPool.start (p : WorkerPool) : WorkerPool × StartOutcome :=
  if p.running then
    (p, .returned)
  else
    let p1 := { p with running := true }
    let healthyWorkers := p.workers.filter workerIsHealthy
    if healthyWorkers.length = 0 then
      (p1, .threw "No healthy workers available")
    else
      ({ p1 with loopCount := healthyWorkers.length }, .started healthyWorkers.length)

/-! ## Submission handler (`src/grpc/handlers.ts`) -/

/-- The proto `CaptureRequest`: optional fields of the wire form are
`Option`. -/
structure CaptureRequest where
  url : String
  labels : List String
  correlation_id : Option String := none
  capture_options : Option CaptureOptions := none
deriving Repr

/-- The proto `CaptureAcceptance` message. -/
structure CaptureAcceptance where
  accepted : Bool
  task_id : String
  correlation_id : Option String := none
  error : Option String := none
deriving DecidableEq, Repr

/-- How `submitCapture` answers: an in-band acceptance message via
`callback(null, acceptance)`, or a transport-level error via
`callback({code, message})` (here: the UNAVAILABLE signal). -/
inductive SubmitOutcome where
  | inband (acceptance : CaptureAcceptance)
  | transportUnavailable (message : String)
deriving DecidableEq, Repr

/-- Abbreviation for the in-band rejection acceptance
`{accepted: false, task_id: "", error}` that `submitCapture` sends on every
validation failure. -/
def inbandRejection (error : Option String) : SubmitOutcome :=
  .inband { accepted := false, task_id := "", error := error }

/-- JS truthiness of the optional `request.correlation_id` string. -/
def correlationTruthy (o : Option String) : Bool :=
  match o with
  | some c => c ≠ ""
  | none => false

/-- `submitCapture` from `handlers.ts` as a function of the pool flags, the
queue state, the generated UUID, and the request. Returns the response and
the queue after any enqueue. -/
def submitCapture (isRunning : Bool) (healthyWorkerCount : Nat)
    (rejectDuplicateUrls : Bool) (q : TaskQueue) (uuid : String)
    (req : CaptureRequest) : SubmitOutcome × TaskQueue :=
  if jsTrim req.url = "" then
    (.inband { accepted := false, task_id := "", error := some "url is required" }, q)
  else
    let captureOptions := captureOptionsFromProto req.capture_options
    let optionsValidation := validateCaptureOptions captureOptions
    if !optionsValidation.valid then
      (.inband { accepted := false, task_id := "", error := optionsValidation.error }, q)
    else
      let trimmedLabels := (req.labels.map jsTrim).filter (fun l => l ≠ "")
      let labelsValidation := validateLabels trimmedLabels
      if trimmedLabels.length > 0 && !labelsValidation.valid then
        (.inband { accepted := false, task_id := "", error := labelsValidation.error }, q)
      else if correlationTruthy req.correlation_id
          && !(validateFilename (req.correlation_id.getD "")).valid then
        (.inband { accepted := false, task_id := "",
                   error := (validateFilename (req.correlation_id.getD "")).error }, q)
      else if !isRunning || healthyWorkerCount = 0 then
        (.transportUnavailable "No healthy workers available", q)
      else
        let task : CaptureTask :=
          { taskId := uuid
            labels := trimmedLabels
            url := jsTrim req.url
            retryCount := 0
            captureOptions := captureOptions
            correlationId :=
              if correlationTruthy req.correlation_id then req.correlation_id else none }
        let enqueueResult := enqueueTask rejectDuplicateUrls q task
        if !enqueueResult.1.success then
          (.inband { accepted := false, task_id := "", error := enqueueResult.1.error },
            enqueueResult.2)
        else
          (.inband { accepted := true, task_id := uuid,
                     correlation_id :=
                       if correlationTruthy req.correlation_id then req.correlation_id
                       else none },
            enqueueResult.2)

/-! ## Concrete fixtures used by witnesses and counterexamples -/

/-- A concrete validated capture task. -/
def cexTask : CaptureTask :=
  { taskId := "task-1", url := "https://example.com", labels := ["Home"],
    captureOptions := { png := true, jpeg := false, html := false }, retryCount := 0 }

/-- A worker with no session, in the stopped state. -/
def cexWorkerUnavailable : WorkerState :=
  { id := "worker-1", hasBrowser := false, status := .stopped,
    processedCount := 3, errorCount := 1, errorHistory := [] }

/-- A healthy idle worker holding a session. -/
def cexWorkerIdle : WorkerState :=
  { id := "worker-1", hasBrowser := true, status := .idle,
    processedCount := 0, errorCount := 0, errorHistory := [] }

/-- A non-success capture result whose failure message contains
`"disconnect"`. -/
def cexDisconnectResult : CaptureResult :=
  { task := cexTask, status := .failed,
    errorDetails := some { type := .connection, message := "session disconnected" },
    error := some "session disconnected",
    captureProcessingTimeMs := 5, timestamp := "2024-01-01T00:00:00Z",
    workerId := "worker-1" }

/-- A non-success capture result from a navigation timeout. -/
def cexTimeoutResult : CaptureResult :=
  { task := cexTask, status := .timeout,
    errorDetails := some { type := .timeout, message := "Timeout: Navigation (30000ms)",
                           timeoutMs := some 30000 },
    captureProcessingTimeMs := 30001, timestamp := "2024-01-01T00:00:00Z",
    workerId := "worker-1" }

/-- A pool whose only worker failed to connect (state error, no session). -/
def unhealthyPoolExample : WorkerPool :=
  { workers := [{ id := "worker-1", hasBrowser := false, status := .error,
                  processedCount := 0, errorCount := 1, errorHistory := [] }] }

/-- A request with a valid url, an invalid label, and all capture flags
false. -/
def cexBadRequest : CaptureRequest :=
  { url := "https://example.com", labels := ["bad:label"],
    capture_options := some { png := false, jpeg := false, html := false } }

/-! ## Helper lemmas -/

theorem mapSet_fresh (k v : String) (m : List (String × String))
    (h : ∀ p ∈ m, p.1 ≠ k) : mapSet k v m = m ++ [(k, v)] := by
  have hany : m.any (fun p => p.1 = k) = false := by
    rw [List.any_eq_false]
    intro p hp
    simp [h p hp]
  unfold mapSet
  rw [hany]
  simp

theorem mapDelete_pairsOf (k : String) (fl : List CaptureTask) :
    mapDelete k (pairsOf fl) = pairsOf (fl.filter (fun u => u.taskId ≠ k)) := by
  induction fl with
  | nil => rfl
  | cons t ts ih =>
    simp only [pairsOf, mapDelete, List.map_cons, List.filter_cons] at *
    by_cases h : t.taskId = k
    · simp [h] at *
      exact ih
    · simp [h] at *
      exact ih

theorem idsOf_filter (k : String) (fl : List CaptureTask) :
    (fl.filter (fun u => u.taskId ≠ k)).map CaptureTask.taskId =
      (fl.map CaptureTask.taskId).filter (fun i => i ≠ k) := by
  induction fl with
  | nil => rfl
  | cons t ts ih =>
    simp only [ne_eq, decide_not] at ih ⊢
    simp only [List.filter_cons, List.map_cons]
    by_cases h : t.taskId = k
    · simp [h, ih]
    · simp [h, ih]

/-- Every reachable queue state satisfies the structural invariant. -/
theorem queueReach_wf {s : TaskQueue} {fl : List CaptureTask}
    (h : QueueReach s fl) : QueueWF s fl := by
  induction h with
  | init => exact ⟨by simp, rfl⟩
  | enqueue task hr hq hfl ih =>
    refine ⟨?_, ih.2⟩
    simp only [TaskQueue.enqueue, List.map_append, List.map_cons, List.map_nil]
    rw [List.append_assoc, List.singleton_append, List.nodup_middle]
    exact List.nodup_cons.mpr ⟨by simp [hq, hfl], ih.1⟩
  | dequeue hr ih =>
    rename_i s fl
    cases hq : s.queue with
    | nil => simpa [TaskQueue.dequeue, hq] using ih
    | cons t rest =>
      have hids := ih.1
      rw [hq] at hids
      simp only [List.map_cons, List.cons_append] at hids
      have htid : t.taskId ∉ rest.map CaptureTask.taskId ++ fl.map CaptureTask.taskId :=
        (List.nodup_cons.mp hids).1
      have hnd : (rest.map CaptureTask.taskId ++ fl.map CaptureTask.taskId).Nodup :=
        (List.nodup_cons.mp hids).2
      constructor
      · simp only [TaskQueue.dequeue, hq, Option.toList, List.map_append,
          List.map_cons, List.map_nil]
        have hperm :
            (rest.map CaptureTask.taskId ++ (fl.map CaptureTask.taskId ++ [t.taskId])).Perm
              (t.taskId :: (rest.map CaptureTask.taskId ++ fl.map CaptureTask.taskId)) := by
          rw [← List.append_assoc]
          exact List.perm_append_singleton _ _
        exact hperm.symm.nodup (List.nodup_cons.mpr ⟨htid, hnd⟩)
      · simp only [TaskQueue.dequeue, hq, Option.toList]
        rw [ih.2]
        have hfresh : ∀ p ∈ pairsOf fl, p.1 ≠ t.taskId := by
          intro p hp
          rcases List.mem_map.mp hp with ⟨u, hu, rfl⟩
          intro hcontra
          apply htid
          apply List.mem_append_right
          exact List.mem_map.mpr ⟨u, hu, hcontra⟩
        rw [mapSet_fresh _ _ _ hfresh]
        simp [pairsOf]
  | requeue task hr hmem ih =>
    rename_i s fl
    have htid_fl : task.taskId ∈ fl.map CaptureTask.taskId :=
      List.mem_map.mpr ⟨task, hmem, rfl⟩
    have hids := ih.1
    rw [List.nodup_append] at hids
    obtain ⟨hndq, hndfl, hdisj⟩ := hids
    constructor
    · simp only [TaskQueue.requeue, List.map_append, List.map_cons, List.map_nil]
      rw [List.append_assoc, List.singleton_append, List.nodup_middle, idsOf_filter]
      refine List.nodup_cons.mpr ⟨?_, ?_⟩
      · intro hc
        rcases List.mem_append.mp hc with hc | hc
        · exact (hdisj hc) htid_fl
        · revert hc
          simp
      · rw [List.nodup_append]
        refine ⟨hndq, hndfl.filter _, ?_⟩
        intro a ha hafil
        exact (hdisj ha) (List.mem_of_mem_filter hafil)
    · simp only [TaskQueue.requeue]
      rw [ih.2, mapDelete_pairsOf]
  | markComplete task hr hmem ih =>
    rename_i s fl
    constructor
    · simp only [TaskQueue.markComplete]
      have hsub : ((fl.filter (fun u => u.taskId ≠ task.taskId)).map CaptureTask.taskId).Sublist
          (fl.map CaptureTask.taskId) := by
        rw [idsOf_filter]
        exact List.filter_sublist _
      exact List.Nodup.sublist (hsub.append_left _) ih.1
    · simp only [TaskQueue.markComplete]
      rw [ih.2, mapDelete_pairsOf]

/-- The attempt trace of one task is bounded: from retry count `k`, at most
`maxRetries - k + 1` further attempts happen. -/
theorem attemptsFrom_length_le :
    ∀ (n maxRetries : Nat) (statusAt : Nat → CaptureStatus) (k : Nat),
      maxRetries - k ≤ n →
      (attemptsFrom maxRetries statusAt k).length ≤ (maxRetries - k) + 1 := by
  intro n
  induction n with
  | zero =>
    intro m statusAt k hk
    rw [attemptsFrom]
    have hkm : ¬(k < m) := by omega
    rw [dif_neg (by simp [hkm])]
    simp
  | succ n ih =>
    intro m statusAt k hk
    rw [attemptsFrom]
    by_cases h : (!isSuccessStatus (statusAt k) && decide (k < m)) = true
    · rw [dif_pos h]
      simp only [Bool.and_eq_true, decide_eq_true_eq] at h
      have := ih m statusAt (k + 1) (by omega)
      simp only [List.length_cons]
      omega
    · rw [dif_neg h]
      simp

/-! ## Claim theorems -/

/-- C1: a task pulled by a dispatch loop whose result is not a success is
requeued iff its `retryCount` at the moment of failure is strictly below
`maxRetries`; requeuing appends a task with `retryCount` exactly one
greater; and — whatever status every attempt produces — one task is
processed at most `maxRetries + 1` times. -/
theorem dispatch_retry_policy :
    ∀ (maxRetries : Nat) (s : TaskQueue) (task : CaptureTask) (st : CaptureStatus),
      ((handleResult maxRetries s task st).2 = true ↔
        (isSuccessStatus st = false ∧ task.retryCount < maxRetries)) ∧
      (isSuccessStatus st = false → task.retryCount < maxRetries →
        (handleResult maxRetries s task st).1.queue =
          s.queue ++ [{ task with retryCount := task.retryCount + 1 }]) ∧
      (∀ (statusAt : Nat → CaptureStatus) (k : Nat), task.retryCount = k →
        attemptsFrom maxRetries statusAt k =
          k :: (if (handleResult maxRetries s task (statusAt k)).2 = true then
            attemptsFrom maxRetries statusAt (k + 1) else [])) ∧
      (∀ statusAt : Nat → CaptureStatus,
        (attemptsFrom maxRetries statusAt 0).length ≤ maxRetries + 1) := by
  intro m s task st
  refine ⟨?_, ?_, ?_, ?_⟩
  · simp only [handleResult, shouldRetry]
    by_cases h : (!isSuccessStatus st && decide (task.retryCount < m)) = true
    · rw [if_pos h]
      simp only [Bool.and_eq_true, Bool.not_eq_true', decide_eq_true_eq] at h
      simpa using h
    · rw [if_neg h]
      simp only [Bool.and_eq_true, Bool.not_eq_true', decide_eq_true_eq] at h
      simpa using h
  · intro h1 h2
    have hcond : (!isSuccessStatus st && decide (task.retryCount < m)) = true := by
      simp [h1, h2]
    simp only [handleResult, shouldRetry]
    rw [if_pos hcond]
    simp [TaskQueue.requeue]
  · intro statusAt k hk
    rw [attemptsFrom]
    simp only [handleResult, shouldRetry, hk]
    by_cases h : (!isSuccessStatus (statusAt k) && decide (k < m)) = true
    · rw [dif_pos h, if_pos (by rw [if_pos h])]
    · rw [dif_neg h, if_neg (by rw [if_neg h]; simp)]
  · intro statusAt
    have := attemptsFrom_length_le m m statusAt 0 (by omega)
    omega

theorem dispatch_retry_policy_witness :
    (handleResult 2 {} cexTask .failed).1.queue =
      ({} : TaskQueue).queue ++ [{ cexTask with retryCount := cexTask.retryCount + 1 }] :=
  (dispatch_retry_policy 2 {} cexTask .failed).2.1 (by decide) (by decide)

/-- C2 (amended): the submission handler applies validations in the order
url, then captureOptions, then labels, then correlationId, then worker
availability, with the first failure winning; in particular a request with
both an invalid label and all-false captureOptions is rejected with the
captureOptions error. -/
theorem submitCapture_validation_order :
    ∀ (isRunning : Bool) (healthy : Nat) (rej : Bool) (q : TaskQueue) (uuid : String)
      (req : CaptureRequest),
      let out := (submitCapture isRunning healthy rej q uuid req).1
      let options := captureOptionsFromProto req.capture_options
      let trimmedLabels := (req.labels.map jsTrim).filter (fun l => l ≠ "")
      let labelsOk := trimmedLabels = [] ∨ (validateLabels trimmedLabels).valid = true
      let cidOk := correlationTruthy req.correlation_id = false ∨
        (validateFilename (req.correlation_id.getD "")).valid = true
      (jsTrim req.url = "" → out = inbandRejection (some "url is required")) ∧
      (jsTrim req.url ≠ "" → (validateCaptureOptions options).valid = false →
        out = inbandRejection (validateCaptureOptions options).error) ∧
      (jsTrim req.url ≠ "" → (validateCaptureOptions options).valid = true →
        trimmedLabels ≠ [] → (validateLabels trimmedLabels).valid = false →
        out = inbandRejection (validateLabels trimmedLabels).error) ∧
      (jsTrim req.url ≠ "" → (validateCaptureOptions options).valid = true → labelsOk →
        correlationTruthy req.correlation_id = true →
        (validateFilename (req.correlation_id.getD "")).valid = false →
        out = inbandRejection (validateFilename (req.correlation_id.getD "")).error) ∧
      (jsTrim req.url ≠ "" → (validateCaptureOptions options).valid = true → labelsOk →
        cidOk → (isRunning = false ∨ healthy = 0) →
        out = .transportUnavailable "No healthy workers available") := by
  intro isRunning healthy rej q uuid req
  refine ⟨?_, ?_, ?_, ?_, ?_⟩
  · intro h
    simp [submitCapture, inbandRejection, h]
  · intro h1 h2
    simp [submitCapture, inbandRejection, h1, h2]
  · intro h1 h2 h3 h4
    have h3' : ((req.labels.map jsTrim).filter (fun l => l ≠ "")).length > 0 :=
      List.length_pos.mpr h3
    simp only [ne_eq, decide_not] at h3' h4
    simp [submitCapture, inbandRejection, h1, h2, h3', h4]
  · intro h1 h2 h3 h4 h5
    rcases h3 with h3 | h3
    · simp only [ne_eq, decide_not] at h3
      simp [submitCapture, inbandRejection, h1, h2, h3, h4, h5, validateLabels]
    · simp only [ne_eq, decide_not] at h3
      simp [submitCapture, inbandRejection, h1, h2, h3, h4, h5]
  · intro h1 h2 h3 h4 h5
    rcases h3 with h3 | h3 <;> rcases h4 with h4 | h4 <;>
      simp only [ne_eq, decide_not] at h3 <;>
      rcases h5 with h5 | h5 <;>
      simp [submitCapture, inbandRejection, h1, h2, h3, h4, h5, validateLabels]

theorem submitCapture_validation_order_witness :
    (submitCapture true 1 false {} "uuid-1" cexBadRequest).1 =
      inbandRejection (validateCaptureOptions
        (captureOptionsFromProto cexBadRequest.capture_options)).error :=
  (submitCapture_validation_order true 1 false {} "uuid-1" cexBadRequest).2.1
    (by decide) (by decide)

/-- C2 counterexample to the claimed order: a request with an invalid label
and all-false capture options is rejected with the captureOptions error,
not the label error. -/
theorem submitCapture_order_counterexample :
    (validateLabels ["bad:label"]).valid = false ∧
    jsTrim "https://example.com" ≠ "" ∧
    (submitCapture true 1 false {} "uuid-1" cexBadRequest).1 =
      inbandRejection
        (some "At least one capture option must be enabled (png, jpeg, or html)") :=
  ⟨by decide, by decide, by decide⟩

/-- C3 (amended): when the capturer returns a non-success result (no
exception escapes), `Worker.process` increments `errorCount`, appends an
`ErrorRecord` carrying the task identity, and always transitions back to
idle; the disconnect/closed substring rule applies only when an exception
escapes the capturer. -/
theorem worker_process_nonsuccess_result_spec :
    ∀ (w : WorkerState) (task : CaptureTask) (now : String) (r : CaptureResult),
      w.hasBrowser = true → w.status = .idle → isSuccessStatus r.status = false →
      (Worker.process w task now (.ok r) =
        .ok (WorkerState.addError
          { w with status := .idle, processedCount := w.processedCount + 1,
                   errorCount := w.errorCount + 1 }
          now (r.error.getD "Unknown error") (some task), r) ∧
       (processState (Worker.process w task now (.ok r))).map (fun w' => w'.status) =
         some .idle ∧
       (processState (Worker.process w task now (.ok r))).map (fun w' => w'.errorCount) =
         some (w.errorCount + 1) ∧
       (processState (Worker.process w task now (.ok r))).map
           (fun w' => w'.errorHistory.head?.map (fun rec => rec.task)) =
         some (some (some { taskId := task.taskId, url := task.url, labels := task.labels }))) := by
  intro w task now r hb hs hr
  have hmain : Worker.process w task now (.ok r) =
      .ok (WorkerState.addError
        { w with status := .idle, processedCount := w.processedCount + 1,
                 errorCount := w.errorCount + 1 }
        now (r.error.getD "Unknown error") (some task), r) := by
    simp [Worker.process, hb, hs, hr, canProcess, transitionTo, canTransitionTo,
      allowedTransitions, processFinally, WorkerState.addError]
  refine ⟨hmain, ?_, ?_, ?_⟩
  · rw [hmain]
    simp [processState, WorkerState.addError]
  · rw [hmain]
    simp [processState, WorkerState.addError]
  · rw [hmain]
    simp only [processState, WorkerState.addError, Option.map]
    by_cases hlen :
        ({ message := r.error.getD "Unknown error", timestamp := now,
           task := some { taskId := task.taskId, url := task.url, labels := task.labels } }
          :: w.errorHistory).length > MAX_ERROR_HISTORY
    · simp only [if_pos hlen]
      cases hh : w.errorHistory with
      | nil =>
        rw [hh] at hlen
        simp [MAX_ERROR_HISTORY] at hlen
      | cons b bs =>
        simp
    · simp only [if_neg hlen]
      simp

theorem worker_process_nonsuccess_result_spec_witness :
    (processState (Worker.process cexWorkerIdle cexTask "2024-01-01T00:00:00Z"
        (.ok cexTimeoutResult))).map (fun w' => w'.errorCount) =
      some (cexWorkerIdle.errorCount + 1) :=
  (worker_process_nonsuccess_result_spec cexWorkerIdle cexTask "2024-01-01T00:00:00Z"
    cexTimeoutResult rfl rfl (by decide)).2.2.1

/-- C3 counterexample: a returned (not thrown) failure whose message
contains `"disconnect"` still leaves the worker idle, not in error. -/
theorem worker_process_disconnect_result_counterexample :
    containsSub "session disconnected" "disconnect" = true ∧
    (processState (Worker.process cexWorkerIdle cexTask "2024-01-01T00:00:00Z"
        (.ok cexDisconnectResult))).map (fun w' => w'.status) = some WorkerStatus.idle :=
  ⟨by decide, by decide⟩

/-- C4 (amended): invoking `process` on a worker that is unhealthy or holds
no session returns a synthetic failed result whose `error` message names
the worker and its status (no structured `errorDetails` is attached) with
`captureProcessingTimeMs = 0`, and leaves the whole worker state — counters,
history and status — unchanged. -/
theorem worker_process_unavailable_frame :
    ∀ (w : WorkerState) (task : CaptureTask) (now : String) (outcome : CaptureOutcome),
      (w.hasBrowser = false ∨ isHealthyStatus w.status = false) →
      Worker.process w task now outcome = .ok (w,
        { task := task, status := .failed,
          error := some ("Worker " ++ w.id ++ " is not available (status: "
            ++ workerStatusName w.status ++ ")"),
          captureProcessingTimeMs := 0, timestamp := now, workerId := w.id }) := by
  intro w task now outcome h
  have hguard : (!w.hasBrowser || !canProcess w.status) = true := by
    rcases h with h | h
    · simp [h]
    · cases hs : w.status
      · rw [hs] at h
        simp [isHealthyStatus] at h
      · rw [hs] at h
        simp [isHealthyStatus] at h
      · simp [canProcess]
      · simp [canProcess]
  simp [Worker.process, hguard]

theorem worker_process_unavailable_frame_witness :
    Worker.process cexWorkerUnavailable cexTask "2024-01-01T00:00:00Z" (.thrown "boom") =
      .ok (cexWorkerUnavailable,
        { task := cexTask, status := .failed,
          error := some "Worker worker-1 is not available (status: stopped)",
          captureProcessingTimeMs := 0, timestamp := "2024-01-01T00:00:00Z",
          workerId := "worker-1" }) := by
  have h := worker_process_unavailable_frame cexWorkerUnavailable cexTask
    "2024-01-01T00:00:00Z" (.thrown "boom") (Or.inl rfl)
  rw [h]
  rfl

/-- C4 counterexample: the synthetic unavailable result carries no
`errorDetails` at all (the claim said `errorDetails.type = internal`). -/
theorem worker_process_unavailable_counterexample :
    (processResult (Worker.process cexWorkerUnavailable cexTask "2024-01-01T00:00:00Z"
        (.thrown "boom"))).map (fun r => r.errorDetails) = some none ∧
    (processResult (Worker.process cexWorkerUnavailable cexTask "2024-01-01T00:00:00Z"
        (.thrown "boom"))).map (fun r => r.captureProcessingTimeMs) = some 0 :=
  ⟨by decide, by decide⟩

/-- C5: `transitionTo(next)` is a no-op when `next` equals the current
state; it throws exactly for error→busy and stopped→busy and updates the
state for every other pair of distinct states; the initial state is
stopped; `canProcess` holds iff the state is idle and `isHealthy` holds iff
the state is idle or busy. -/
theorem workerStatusManager_spec :
    initialWorkerStatus = WorkerStatus.stopped ∧
    (∀ s : WorkerStatus, transitionTo s s = .ok s) ∧
    (∀ s : WorkerStatus, canProcess s = true ↔ s = .idle) ∧
    (∀ s : WorkerStatus, isHealthyStatus s = true ↔ (s = .idle ∨ s = .busy)) ∧
    (∀ s t : WorkerStatus,
      (transitionTo s t).isOk = false ↔ ((s = .error ∨ s = .stopped) ∧ t = .busy)) ∧
    (transitionTo .error .busy = .error "Invalid status transition: error -> busy" ∧
      transitionTo .stopped .busy = .error "Invalid status transition: stopped -> busy") ∧
    (∀ s t : WorkerStatus, s ≠ t → ¬((s = .error ∨ s = .stopped) ∧ t = .busy) →
      transitionTo s t = .ok t) := by
  refine ⟨rfl, ?_, ?_, ?_, ?_, ?_, ?_⟩ <;> decide

theorem workerStatusManager_spec_witness :
    transitionTo .busy .idle = .ok .idle :=
  workerStatusManager_spec.2.2.2.2.2.2 .busy .idle (by decide) (by decide)

/-- C6: in every queue state reachable through the `TaskQueue` operations
(with the in-flight tasks `fl` as ghost state), `hasUrl u` holds iff some
pending or in-flight task has url `u` — completed tasks never count; and
`enqueueTask` rejects with exactly `"URL already in queue: {url}"` iff
`rejectDuplicateUrls` is set and `hasUrl task.url` holds, leaving the queue
unchanged, and otherwise appends the task to the pending tail and reports
success. -/
theorem taskQueue_hasUrl_enqueueTask_spec :
    ∀ (s : TaskQueue) (fl : List CaptureTask), QueueReach s fl →
      ∀ (u : String) (rejectDuplicateUrls : Bool) (task : CaptureTask),
      (s.hasUrl u = true ↔ ((∃ t ∈ s.queue, t.url = u) ∨ (∃ t ∈ fl, t.url = u))) ∧
      ((enqueueTask rejectDuplicateUrls s task).1.success = false ↔
        (rejectDuplicateUrls = true ∧ s.hasUrl task.url = true)) ∧
      ((enqueueTask rejectDuplicateUrls s task).1.success = false →
        ((enqueueTask rejectDuplicateUrls s task).1.error =
            some ("URL already in queue: " ++ task.url) ∧
          (enqueueTask rejectDuplicateUrls s task).2 = s)) ∧
      ((enqueueTask rejectDuplicateUrls s task).1.success = true →
        ((enqueueTask rejectDuplicateUrls s task).1.error = none ∧
          (enqueueTask rejectDuplicateUrls s task).2.queue = s.queue ++ [task])) := by
  intro s fl hreach u rej task
  have hwf := queueReach_wf hreach
  refine ⟨?_, ?_, ?_, ?_⟩
  · rw [TaskQueue.hasUrl, hwf.2]
    simp [pairsOf, List.any_eq_true, List.any_map, Function.comp]
  · by_cases hc : (rej && s.hasUrl task.url) = true
    · rw [enqueueTask, if_pos hc]
      simp only [Bool.and_eq_true] at hc
      simpa using hc
    · rw [enqueueTask, if_neg hc]
      simp only [Bool.and_eq_true] at hc
      simpa using hc
  · intro hfail
    by_cases hc : (rej && s.hasUrl task.url) = true
    · rw [enqueueTask, if_pos hc]
      exact ⟨rfl, rfl⟩
    · rw [enqueueTask, if_neg hc] at hfail
      simp at hfail
  · intro hok
    by_cases hc : (rej && s.hasUrl task.url) = true
    · rw [enqueueTask, if_pos hc] at hok
      simp at hok
    · rw [enqueueTask, if_neg hc]
      exact ⟨rfl, rfl⟩

theorem taskQueue_hasUrl_enqueueTask_spec_witness :
    (TaskQueue.hasUrl {} "https://example.com" = true ↔
      ((∃ t ∈ ({} : TaskQueue).queue, t.url = "https://example.com") ∨
        (∃ t ∈ ([] : List CaptureTask), t.url = "https://example.com"))) :=
  (taskQueue_hasUrl_enqueueTask_spec {} [] QueueReach.init "https://example.com" true
    cexTask).1

/-- C7: `errorDetailsFromException` classifies a message containing
`"Timeout"` as timeout (taking precedence), with `timeoutMs` populated from
the first `(Nms)` group when present and absent otherwise; else as
connection when the message contains `"disconnect"` or `"closed"`; else as
internal; the returned message always equals the exception's message. -/
theorem errorDetailsFromException_spec :
    ∀ message : String,
      (errorDetailsFromException message).message = message ∧
      ((errorDetailsFromException message).type = .timeout ↔
        containsSub message "Timeout" = true) ∧
      ((errorDetailsFromException message).type = .connection ↔
        (containsSub message "Timeout" = false ∧
          (containsSub message "disconnect" = true ∨ containsSub message "closed" = true))) ∧
      ((errorDetailsFromException message).type = .internal ↔
        (containsSub message "Timeout" = false ∧ containsSub message "disconnect" = false ∧
          containsSub message "closed" = false)) ∧
      (errorDetailsFromException message).timeoutMs =
        (if containsSub message "Timeout" = true then execParenMs message.data else none) := by
  intro message
  unfold errorDetailsFromException
  by_cases h1 : containsSub message "Timeout" = true <;>
    by_cases h2 : containsSub message "disconnect" = true <;>
    by_cases h3 : containsSub message "closed" = true <;>
    simp_all

theorem errorDetailsFromException_spec_witness :
    (errorDetailsFromException "Timeout: Navigation (30000ms)").type = .timeout :=
  (errorDetailsFromException_spec "Timeout: Navigation (30000ms)").2.1.mpr (by decide)

/-- C8: `generateFilename` is a deterministic pure function of
(taskId, correlationId, labels, extension) following the four-case matrix:
no correlationId and no labels gives `{taskId}.{ext}`; labels only gives
`{taskId}_{labels joined by "-"}.{ext}`; correlationId only gives
`{taskId}_{correlationId}.{ext}`; both give
`{taskId}_{correlationId}_{labels joined by "-"}.{ext}`. -/
theorem generateFilename_matrix :
    ∀ (task : CaptureTask) (ext : String),
      (task.correlationId = none → task.labels = [] →
        generateFilename task ext = task.taskId ++ "." ++ ext) ∧
      (task.correlationId = none → task.labels ≠ [] →
        generateFilename task ext =
          task.taskId ++ "_" ++ joinSep "-" task.labels ++ "." ++ ext) ∧
      (∀ c, task.correlationId = some c → c ≠ "" → task.labels = [] →
        generateFilename task ext = task.taskId ++ "_" ++ c ++ "." ++ ext) ∧
      (∀ c, task.correlationId = some c → c ≠ "" → task.labels ≠ [] →
        generateFilename task ext =
          task.taskId ++ "_" ++ c ++ "_" ++ joinSep "-" task.labels ++ "." ++ ext) ∧
      (∀ task' : CaptureTask, task.taskId = task'.taskId →
        task.correlationId = task'.correlationId → task.labels = task'.labels →
        generateFilename task ext = generateFilename task' ext) := by
  intro task ext
  refine ⟨?_, ?_, ?_, ?_, ?_⟩
  · intro hc hl
    simp [generateFilename, hc, hl, joinSep]
  · intro hc hl
    have : task.labels.length > 0 := List.length_pos.mpr hl
    simp [generateFilename, LABELS_SEPARATOR, hc, this, joinSep, String.append_assoc]
  · intro c hc hne hl
    simp [generateFilename, hc, hne, hl, joinSep]
  · intro c hc hne hl
    have : task.labels.length > 0 := List.length_pos.mpr hl
    simp [generateFilename, LABELS_SEPARATOR, hc, hne, this, joinSep, String.append_assoc]
  · intro task' h1 h2 h3
    simp [generateFilename, h1, h2, h3]

theorem generateFilename_matrix_witness :
    generateFilename
      { taskId := "t", url := "https://example.com", labels := ["a", "b"],
        correlationId := some "c",
        captureOptions := { png := true, jpeg := false, html := false },
        retryCount := 0 } "png" = "t_c_a-b.png" := by
  have h := (generateFilename_matrix
    { taskId := "t", url := "https://example.com", labels := ["a", "b"],
      correlationId := some "c",
      captureOptions := { png := true, jpeg := false, html := false },
      retryCount := 0 } "png").2.2.2.1 "c" rfl (by decide) (by decide)
  rw [h]
  rfl

/-- C9: a request that omits `capture_options` entirely is treated
identically to one with all three flags false: `captureOptionsFromProto`
of an absent value yields all-false flags, and (when the url passes) the
request is rejected in-band with the capture-options error message. -/
theorem captureOptions_absent_treated_as_all_false :
    ∀ (isRunning : Bool) (healthy : Nat) (rej : Bool) (q : TaskQueue) (uuid : String)
      (req : CaptureRequest), req.capture_options = none →
      (captureOptionsFromProto none = { png := false, jpeg := false, html := false } ∧
       submitCapture isRunning healthy rej q uuid req =
         submitCapture isRunning healthy rej q uuid
           { req with capture_options := some { png := false, jpeg := false, html := false } } ∧
       (jsTrim req.url ≠ "" →
         (submitCapture isRunning healthy rej q uuid req).1 =
           inbandRejection
             (some "At least one capture option must be enabled (png, jpeg, or html)"))) := by
  intro isRunning healthy rej q uuid req hopt
  refine ⟨rfl, ?_, ?_⟩
  · simp [submitCapture, hopt, captureOptionsFromProto]
  · intro hurl
    simp [submitCapture, inbandRejection, hopt, captureOptionsFromProto,
      validateCaptureOptions, hurl]

theorem captureOptions_absent_treated_as_all_false_witness :
    (submitCapture true 1 false {} "uuid-1"
        { url := "https://example.com", labels := ["Home"] }).1 =
      inbandRejection
        (some "At least one capture option must be enabled (png, jpeg, or html)") :=
  (captureOptions_absent_treated_as_all_false true 1 false {} "uuid-1"
    { url := "https://example.com", labels := ["Home"] } rfl).2.2 (by decide)

/-- C10: calling `start()` on a non-running pool with zero healthy workers
throws `"No healthy workers available"` only after setting `running` to
true; afterwards `isRunning` is true although no dispatch loop was
spawned, and a subsequent `start()` returns immediately without change. -/
theorem workerPool_start_throw_spec :
    ∀ p : WorkerPool, p.running = false →
      (∀ w ∈ p.workers, workerIsHealthy w = false) →
      (p.start.2 = .threw "No healthy workers available" ∧
       p.start.1.running = true ∧
       p.start.1.loopCount = p.loopCount ∧
       p.start.1.start = (p.start.1, .returned)) := by
  intro p hrun hw
  have hfilter : p.workers.filter workerIsHealthy = [] := by
    rw [List.filter_eq_nil_iff]
    intro w hwmem
    simp [hw w hwmem]
  have h1 : p.start = ({ p with running := true }, .threw "No healthy workers available") := by
    simp [WorkerPool.start, hrun, hfilter]
  refine ⟨?_, ?_, ?_, ?_⟩
  · rw [h1]
  · rw [h1]
  · rw [h1]
  · rw [h1]
    simp [WorkerPool.start]

theorem workerPool_start_throw_spec_witness :
    unhealthyPoolExample.start.2 = .threw "No healthy workers available" :=
  (workerPool_start_throw_spec unhealthyPoolExample rfl (by decide)).1
